import Mathlib

/-!
Verification of the Open-Healthcare-Simulation single-site ED model.

Shallow embedding of the discrete-event simulation in `src/edems/`:
simulated time is `ℚ` (simpy float minutes), counters are `ℕ`
(they start at 0, are incremented by 1, and decremented with
`max(0, x - 1)`, which is truncated subtraction on `ℕ`), and
per-hour dictionaries are total functions `ℤ → ℕ` (missing keys read 0,
matching `dict.get(k, 0)`).
-/

namespace EDems

/-- Python `int(x)` on a float: truncation toward zero. -/
def pyInt (q : ℚ) : ℤ := if 0 ≤ q then ⌊q⌋ else -⌊-q⌋

/-- Source `EDTreatmentMixin._abs_hour` (ed_treatment.py:143-145):
`int(now_min // 60)`; float floor-division then `int` of an integral
float is exactly the floor. -/
def absHour (now : ℚ) : ℤ := ⌊now / 60⌋

/-- Source `EDTreatmentMixin._hour_of_day` (ed_treatment.py:147-149):
`int((now_min % 1440) // 60)`; Python float `%` with a positive divisor
returns `now - 1440 * floor(now / 1440)`. -/
def hourOfDay (now : ℚ) : ℤ := ⌊(now - 1440 * (⌊now / 1440⌋ : ℤ)) / 60⌋

/-- Source `EDTreatmentMixin._day_anchor` (ed_treatment.py:127-129):
`(int(now_min) // 1440) * 1440`. -/
def dayAnchor (now : ℚ) : ℤ := (pyInt now).fdiv 1440 * 1440

/-- Runtime record for one doctor, as built by
`EDTreatmentMixin._init_doctors` (ed_treatment.py:31-45) and
`DoctorManager.__init__` (doctor.py:12-25): static configuration fields
plus the two mutable counters `active_panel` and
`signed_up_by_abs_hour`. -/
structure Doctor where
  name : String
  area : String
  start_min : ℤ
  shift_min : ℤ
  max_panel : ℕ
  hourly_caps : List ℕ
  active_panel : ℕ
  signed_up_by_abs_hour : ℤ → ℕ

/-- Source `EDTreatmentMixin._doc_on_shift` (ed_treatment.py:131-141). -/
def docOnShift (doc : Doctor) (now : ℚ) : Bool :=
  let day0 := dayAnchor now
  let s := day0 + doc.start_min
  let e := s + doc.shift_min
  if doc.shift_min ≥ 1440 then true
  else if e ≤ day0 + 1440 then decide ((s : ℚ) ≤ now ∧ now < (e : ℚ))
  else decide (now ≥ (s : ℚ) ∨ now < ((e - 1440 : ℤ) : ℚ))

/-- Source `EDTreatmentMixin._doc_hour_cap` (ed_treatment.py:151-156):
`math.inf` when the cap list is empty is modelled as `none`;
otherwise `caps[hour_of_day % len(caps)]`. -/
def docHourCap (doc : Doctor) (now : ℚ) : Option ℕ :=
  if doc.hourly_caps.isEmpty then none
  else some (doc.hourly_caps.getD ((hourOfDay now % doc.hourly_caps.length).toNat) 0)

/-- Source `EDTreatmentMixin._doc_can_signup` (ed_treatment.py:158-165). -/
def docCanSignup (doc : Doctor) (now : ℚ) : Bool :=
  if ¬ docOnShift doc now then false
  else if doc.active_panel ≥ doc.max_panel then false
  else
    match docHourCap doc now with
    | none => true
    | some cap => decide (doc.signed_up_by_abs_hour (absHour now) < cap)

/-- The booking half of `EDTreatmentMixin._assign_doctor`
(ed_treatment.py:181-184), identical to `DoctorManager.try_signup`
(doctor.py:73-76): book one signup against the current absolute hour
and occupy one panel slot. -/
def bookSignup (doc : Doctor) (now : ℚ) : Doctor :=
  { doc with
    signed_up_by_abs_hour := fun ah =>
      if ah = absHour now then doc.signed_up_by_abs_hour ah + 1
      else doc.signed_up_by_abs_hour ah
    active_panel := doc.active_panel + 1 }

/-- Source `EDTreatmentMixin._release_doctor_panel` (ed_treatment.py:192-193):
`active_panel = max(0, active_panel - 1)`, i.e. `ℕ` truncated
subtraction. -/
def releaseDoctorPanel (doc : Doctor) : Doctor :=
  { doc with active_panel := doc.active_panel - 1 }

/-- Static doctor configuration (`DoctorConfig`, config.py:26-35). -/
structure DoctorConfig where
  name : String
  area : String
  start_minute : ℤ
  shift_minutes : ℤ
  max_active_panel : ℕ
  hourly_max_signups : List ℕ

/-- The per-doctor runtime record built by `_init_doctors`
(ed_treatment.py:34-45): counters start at `0` and the signup
dictionary starts empty (every absolute hour reads 0). -/
def mkDoctor (d : DoctorConfig) : Doctor :=
  { name := d.name
    area := d.area
    start_min := d.start_minute
    shift_min := d.shift_minutes
    max_panel := d.max_active_panel
    hourly_caps := d.hourly_max_signups
    active_panel := 0
    signed_up_by_abs_hour := fun _ => 0 }

/-- The cap that `_doc_hour_cap` reads, re-indexed by absolute hour:
`hourly_caps[(ah % 24) % len]`.  `docHourCap_eq_capAtAbsHour` proves this
is exactly what the code computes from `now`. -/
def capAtAbsHour (doc : Doctor) (ah : ℤ) : Option ℕ :=
  if doc.hourly_caps.isEmpty then none
  else some (doc.hourly_caps.getD (((ah % 24) % doc.hourly_caps.length).toNat) 0)

/-- The mutations the running simulation applies to one doctor record:
a booking (`_assign_doctor`, ed_treatment.py:176-190, reached only when
`_choose_doctor` returned a doctor, i.e. only when `_doc_can_signup`
held — ed_treatment.py:167-174) and a panel release
(`_release_doctor_panel`, called from discharge, admission boarding and
the dispatcher rollback). -/
inductive DocStep : Doctor → Doctor → Prop
  | signup (doc : Doctor) (now : ℚ) (h : docCanSignup doc now = true) :
      DocStep doc (bookSignup doc now)
  | release (doc : Doctor) : DocStep doc (releaseDoctorPanel doc)

/-- Doctor states reachable from the freshly initialised record. -/
inductive DocReachable (d0 : Doctor) : Doctor → Prop
  | refl : DocReachable d0 d0
  | step {d d' : Doctor} : DocReachable d0 d → DocStep d d' → DocReachable d0 d'

/-- Key time fact `hour_of_day(now) = abs_hour(now) % 24`: the hour-of-day index the
signup guard uses and the absolute-hour dictionary key agree modulo 24. -/
theorem hourOfDay_eq_absHour_emod (now : ℚ) : hourOfDay now = absHour now % 24 := by
  unfold hourOfDay absHour
  have h1 : (now - 1440 * ((⌊now / 1440⌋ : ℤ) : ℚ)) / 60
      = now / 60 - ((24 * ⌊now / 1440⌋ : ℤ) : ℚ) := by
    push_cast
    ring
  rw [h1, Int.floor_sub_int]
  have hlb : ((⌊now / 1440⌋ : ℤ) : ℚ) ≤ now / 1440 := Int.floor_le _
  have hub : now / 1440 < (⌊now / 1440⌋ : ℤ) + 1 := Int.lt_floor_add_one _
  have h2 : 24 * ⌊now / 1440⌋ ≤ ⌊now / 60⌋ := by
    rw [Int.le_floor]
    push_cast
    linarith
  have h3 : ⌊now / 60⌋ < 24 * ⌊now / 1440⌋ + 24 := by
    rw [Int.floor_lt]
    push_cast
    linarith
  omega

/-- The hour cap consulted at time `now` is the absolute-hour cap of
`absHour now`. -/
theorem docHourCap_eq_capAtAbsHour (doc : Doctor) (now : ℚ) :
    docHourCap doc now = capAtAbsHour doc (absHour now) := by
  unfold docHourCap capAtAbsHour
  rw [hourOfDay_eq_absHour_emod]

/-- Unpacking the signup guard `_doc_can_signup`. -/
theorem of_docCanSignup {doc : Doctor} {now : ℚ} (h : docCanSignup doc now = true) :
    doc.active_panel < doc.max_panel ∧
    ∀ c, capAtAbsHour doc (absHour now) = some c →
      doc.signed_up_by_abs_hour (absHour now) < c := by
  unfold docCanSignup at h
  rw [docHourCap_eq_capAtAbsHour] at h
  split at h
  · exact absurd h (by simp)
  · split at h
    · exact absurd h (by simp)
    · refine ⟨by omega, ?_⟩
      intro c hc
      split at h
      · simp_all
      · rename_i heq
        rw [hc] at heq
        cases heq
        exact of_decide_eq_true h

/-- The counter invariant is preserved by every doctor mutation. -/
theorem docInv_step {d d' : Doctor}
    (hinv : d.active_panel ≤ d.max_panel ∧
      ∀ ah : ℤ, ∀ c, capAtAbsHour d ah = some c → d.signed_up_by_abs_hour ah ≤ c)
    (hstep : DocStep d d') :
    d'.active_panel ≤ d'.max_panel ∧
      ∀ ah : ℤ, ∀ c, capAtAbsHour d' ah = some c → d'.signed_up_by_abs_hour ah ≤ c := by
  obtain ⟨hpanel, hsign⟩ := hinv
  cases hstep with
  | signup now h =>
    obtain ⟨hlt, hcap⟩ := of_docCanSignup h
    constructor
    · simpa [bookSignup] using hlt
    · intro ah c hc
      simp only [bookSignup] at hc ⊢
      by_cases hah : ah = absHour now
      · subst hah
        simp only [if_pos rfl]
        exact hcap c hc
      · simp only [if_neg hah]
        exact hsign ah c hc
  | release =>
    refine ⟨?_, fun ah c hc => hsign ah c hc⟩
    simp only [releaseDoctorPanel]
    omega

/-- C8: at every simulated time, every doctor's active panel count is
at least 0 and never exceeds that doctor's maximum active panel size,
and for every absolute hour the number of signups booked against that
doctor in that hour never exceeds the doctor's hourly cap for that
hour-of-day.  The panel count lives in `ℕ` (the code decrements with
`max(0, x - 1)`), so non-negativity is by construction; `capAtAbsHour`
is the hour-of-day cap `hourly_caps[(ah % 24) % len]` consulted by
`_doc_can_signup`, and an empty cap list means `math.inf`, i.e. no
bound. -/
theorem C8_panel_and_hourly_signup_invariant (cfg : DoctorConfig) (d : Doctor)
    (h : DocReachable (mkDoctor cfg) d) :
    0 ≤ d.active_panel ∧ d.active_panel ≤ d.max_panel ∧
    ∀ ah : ℤ, ∀ c, capAtAbsHour d ah = some c → d.signed_up_by_abs_hour ah ≤ c := by
  have key : d.active_panel ≤ d.max_panel ∧
      ∀ ah : ℤ, ∀ c, capAtAbsHour d ah = some c → d.signed_up_by_abs_hour ah ≤ c := by
    induction h with
    | refl => exact ⟨Nat.zero_le _, fun ah c _ => Nat.zero_le c⟩
    | step _ hstep ih => exact docInv_step ih hstep
  exact ⟨Nat.zero_le _, key.1, key.2⟩

/-- A concrete doctor configuration (the shape of `DrA1` in run.py). -/
def drA1cfg : DoctorConfig :=
  { name := "DrA1"
    area := "A"
    start_minute := 0
    shift_minutes := 720
    max_active_panel := 10
    hourly_max_signups := [3, 3, 3, 3, 2, 2, 2, 2, 2, 2, 2, 2] }

/-- Witness for C8: the invariant holds at a concrete reachable doctor
state (the fresh record after one panel release). -/
theorem C8_panel_and_hourly_signup_invariant_witness :
    0 ≤ (releaseDoctorPanel (mkDoctor drA1cfg)).active_panel ∧
    (releaseDoctorPanel (mkDoctor drA1cfg)).active_panel
      ≤ (releaseDoctorPanel (mkDoctor drA1cfg)).max_panel ∧
    ∀ ah : ℤ, ∀ c, capAtAbsHour (releaseDoctorPanel (mkDoctor drA1cfg)) ah = some c →
      (releaseDoctorPanel (mkDoctor drA1cfg)).signed_up_by_abs_hour ah ≤ c :=
  C8_panel_and_hourly_signup_invariant drA1cfg _
    (DocReachable.step DocReachable.refl (DocStep.release _))

/-- C10: after the dispatcher's rollback (`_release_doctor_panel` on a
doctor it had just booked via `_assign_doctor`, ed_treatment.py:330-335),
the active panel count is restored, the absolute hour's signup count
stays incremented, and every other doctor field is unchanged. -/
theorem C10_rollback_keeps_hourly_signup (doc : Doctor) (now : ℚ)
    (h : docCanSignup doc now = true) :
    (releaseDoctorPanel (bookSignup doc now)).active_panel = doc.active_panel ∧
    (releaseDoctorPanel (bookSignup doc now)).signed_up_by_abs_hour (absHour now)
      = doc.signed_up_by_abs_hour (absHour now) + 1 ∧
    (∀ ah, ah ≠ absHour now →
      (releaseDoctorPanel (bookSignup doc now)).signed_up_by_abs_hour ah
        = doc.signed_up_by_abs_hour ah) ∧
    (releaseDoctorPanel (bookSignup doc now)).name = doc.name ∧
    (releaseDoctorPanel (bookSignup doc now)).area = doc.area ∧
    (releaseDoctorPanel (bookSignup doc now)).start_min = doc.start_min ∧
    (releaseDoctorPanel (bookSignup doc now)).shift_min = doc.shift_min ∧
    (releaseDoctorPanel (bookSignup doc now)).max_panel = doc.max_panel ∧
    (releaseDoctorPanel (bookSignup doc now)).hourly_caps = doc.hourly_caps := by
  refine ⟨by simp [releaseDoctorPanel, bookSignup], ?_, ?_, rfl, rfl, rfl, rfl, rfl, rfl⟩
  · simp [releaseDoctorPanel, bookSignup]
  · intro ah hah
    simp [releaseDoctorPanel, bookSignup, hah]

/-- A concrete booked-then-rolled-back state used by the C10 witness:
`DrA1` with two active patients at time 0 (on shift, under panel and
hourly caps). -/
def c10doc : Doctor :=
  { mkDoctor drA1cfg with active_panel := 2 }

/-- Witness for C10 at `c10doc` and `now = 0`. -/
theorem C10_rollback_keeps_hourly_signup_witness :
    (releaseDoctorPanel (bookSignup c10doc 0)).active_panel = c10doc.active_panel ∧
    (releaseDoctorPanel (bookSignup c10doc 0)).signed_up_by_abs_hour (absHour 0)
      = c10doc.signed_up_by_abs_hour (absHour 0) + 1 ∧
    (∀ ah, ah ≠ absHour 0 →
      (releaseDoctorPanel (bookSignup c10doc 0)).signed_up_by_abs_hour ah
        = c10doc.signed_up_by_abs_hour ah) ∧
    (releaseDoctorPanel (bookSignup c10doc 0)).name = c10doc.name ∧
    (releaseDoctorPanel (bookSignup c10doc 0)).area = c10doc.area ∧
    (releaseDoctorPanel (bookSignup c10doc 0)).start_min = c10doc.start_min ∧
    (releaseDoctorPanel (bookSignup c10doc 0)).shift_min = c10doc.shift_min ∧
    (releaseDoctorPanel (bookSignup c10doc 0)).max_panel = c10doc.max_panel ∧
    (releaseDoctorPanel (bookSignup c10doc 0)).hourly_caps = c10doc.hourly_caps :=
  C10_rollback_keeps_hourly_signup c10doc 0 (by
    norm_num [docCanSignup, docOnShift, docHourCap, dayAnchor, pyInt,
      absHour, hourOfDay, c10doc, mkDoctor, drA1cfg])

/-! Capacity pools (C5).

Fixed capacities (ed.py:41 `_cap`, 48 `_ft_cap`, 66 `_download_cap`,
inpatient_flow.py:31 `_unit_cap`, ed.py:77 `simpy.Container(...,
capacity=9999)`) and the mutable occupancy counters (ed.py:42 `_busy`,
49 `_ft_busy`, 67 `_download_busy`, inpatient_flow.py:32 `_unit_busy`,
and the offload token level).  All counters start at 0; the offload
container starts at the hour-0 staffing level. -/

structure PoolCaps where
  cap : String → ℕ
  ft_cap : ℕ
  download_cap : ℕ
  unit_cap : String → ℕ
  offload_container_cap : ℕ

structure PoolOcc where
  busy : String → ℕ
  ft_busy : ℕ
  download_busy : ℕ
  unit_busy : String → ℕ
  offload_level : ℕ

/-- Single-key update of a counter dictionary. -/
def updArea (f : String → ℕ) (a : String) (v : ℕ) : String → ℕ :=
  fun x => if x = a then v else f x

/-- Every mutation of a capacity counter in the source, with the guard
that the same atomic (yield-free) block establishes:
* `acute_place`: `_acute_bed_dispatcher` increments `_busy[area]`
  (ed_treatment.py:337) only for a candidate collected under
  `self._busy[area] < self._cap[area]` (ed_treatment.py:317), with no
  yield in between on the success path;
* `acute_release`: `max(0, busy - 1)` at discharge
  (ed_treatment.py:518, 557) and at inpatient transfer
  (inpatient_flow.py:137);
* `ft_place`: guard `self._ft_busy < self._ft_cap`
  (ed_treatment.py:378) before the increment (ed_treatment.py:392);
* `ft_release`: ed_treatment.py:603 and inpatient_flow.py:131;
* `download_place`: `_place_into_download` (ems_offload.py:86)
  increments unconditionally, but both callers check
  `_download_busy < _download_cap` first (ems_offload.py:64,
  ed_treatment.py:365) in the same synchronous block;
* `download_release`: ed_treatment.py:349;
* `unit_place`: `_start_inpatient_stay` (inpatient_flow.py:100), called
  under `_unit_busy < _unit_cap` (inpatient_flow.py:68, 79-82);
* `unit_release`: inpatient_flow.py:120;
* `offload_get` / `offload_put`: simpy `Container` semantics — a `get`
  resumes only when the level covers the request, a `put` only when the
  result stays within the container capacity (9999, ed.py:77);
  used by `_offload_staff_scheduler` and `_ems_offload`
  (ems_offload.py:32, 34, 42, 61). -/
inductive PoolStep (c : PoolCaps) : PoolOcc → PoolOcc → Prop
  | acute_place (s : PoolOcc) (a : String) (h : s.busy a < c.cap a) :
      PoolStep c s { s with busy := updArea s.busy a (s.busy a + 1) }
  | acute_release (s : PoolOcc) (a : String) :
      PoolStep c s { s with busy := updArea s.busy a (s.busy a - 1) }
  | ft_place (s : PoolOcc) (h : s.ft_busy < c.ft_cap) :
      PoolStep c s { s with ft_busy := s.ft_busy + 1 }
  | ft_release (s : PoolOcc) :
      PoolStep c s { s with ft_busy := s.ft_busy - 1 }
  | download_place (s : PoolOcc) (h : s.download_busy < c.download_cap) :
      PoolStep c s { s with download_busy := s.download_busy + 1 }
  | download_release (s : PoolOcc) :
      PoolStep c s { s with download_busy := s.download_busy - 1 }
  | unit_place (s : PoolOcc) (u : String) (h : s.unit_busy u < c.unit_cap u) :
      PoolStep c s { s with unit_busy := updArea s.unit_busy u (s.unit_busy u + 1) }
  | unit_release (s : PoolOcc) (u : String) :
      PoolStep c s { s with unit_busy := updArea s.unit_busy u (s.unit_busy u - 1) }
  | offload_get (s : PoolOcc) (n : ℕ) (h : n ≤ s.offload_level) :
      PoolStep c s { s with offload_level := s.offload_level - n }
  | offload_put (s : PoolOcc) (n : ℕ)
      (h : s.offload_level + n ≤ c.offload_container_cap) :
      PoolStep c s { s with offload_level := s.offload_level + n }

/-- The initial occupancy state built by `SingleSiteSim.__init__`:
all busy counters 0, offload token level = hour-0 staffing. -/
def initOcc (lvl : ℕ) : PoolOcc :=
  { busy := fun _ => 0
    ft_busy := 0
    download_busy := 0
    unit_busy := fun _ => 0
    offload_level := lvl }

inductive PoolReachable (c : PoolCaps) (s0 : PoolOcc) : PoolOcc → Prop
  | refl : PoolReachable c s0 s0
  | step {s s' : PoolOcc} :
      PoolReachable c s0 s → PoolStep c s s' → PoolReachable c s0 s'

/-- C5: at every simulated time and for every capacity pool — each
acute area's bed count, the fast-track bed count, EMS download holding,
the offload bay token pool, and every inpatient unit — the occupancy
counter is at least 0 (the counters are `ℕ`; every decrement in the
source is `max(0, x - 1)`) and never exceeds the pool's capacity. -/
theorem C5_capacity_invariant (c : PoolCaps) (lvl : ℕ)
    (hlvl : lvl ≤ c.offload_container_cap) (s : PoolOcc)
    (h : PoolReachable c (initOcc lvl) s) :
    (∀ a, 0 ≤ s.busy a ∧ s.busy a ≤ c.cap a) ∧
    (0 ≤ s.ft_busy ∧ s.ft_busy ≤ c.ft_cap) ∧
    (0 ≤ s.download_busy ∧ s.download_busy ≤ c.download_cap) ∧
    (∀ u, 0 ≤ s.unit_busy u ∧ s.unit_busy u ≤ c.unit_cap u) ∧
    (0 ≤ s.offload_level ∧ s.offload_level ≤ c.offload_container_cap) := by
  induction h with
  | refl =>
    exact ⟨fun a => ⟨Nat.zero_le _, Nat.zero_le _⟩, ⟨Nat.zero_le _, Nat.zero_le _⟩,
      ⟨Nat.zero_le _, Nat.zero_le _⟩, fun u => ⟨Nat.zero_le _, Nat.zero_le _⟩,
      ⟨Nat.zero_le _, hlvl⟩⟩
  | step _ hstep ih =>
    obtain ⟨hb, hft, hdl, hu, hof⟩ := ih
    cases hstep with
    | acute_place a h =>
      refine ⟨fun x => ⟨Nat.zero_le _, ?_⟩, hft, hdl, hu, hof⟩
      dsimp only [updArea]
      by_cases hx : x = a
      · subst hx
        rw [if_pos rfl]
        omega
      · rw [if_neg hx]
        exact (hb x).2
    | acute_release a =>
      refine ⟨fun x => ⟨Nat.zero_le _, ?_⟩, hft, hdl, hu, hof⟩
      dsimp only [updArea]
      by_cases hx : x = a
      · subst hx
        rw [if_pos rfl]
        have := (hb x).2
        omega
      · rw [if_neg hx]
        exact (hb x).2
    | ft_place h =>
      refine ⟨hb, ⟨Nat.zero_le _, ?_⟩, hdl, hu, hof⟩
      dsimp only
      omega
    | ft_release =>
      refine ⟨hb, ⟨Nat.zero_le _, ?_⟩, hdl, hu, hof⟩
      dsimp only
      have := hft.2
      omega
    | download_place h =>
      refine ⟨hb, hft, ⟨Nat.zero_le _, ?_⟩, hu, hof⟩
      dsimp only
      omega
    | download_release =>
      refine ⟨hb, hft, ⟨Nat.zero_le _, ?_⟩, hu, hof⟩
      dsimp only
      have := hdl.2
      omega
    | unit_place u h =>
      refine ⟨hb, hft, hdl, fun x => ⟨Nat.zero_le _, ?_⟩, hof⟩
      dsimp only [updArea]
      by_cases hx : x = u
      · subst hx
        rw [if_pos rfl]
        omega
      · rw [if_neg hx]
        exact (hu x).2
    | unit_release u =>
      refine ⟨hb, hft, hdl, fun x => ⟨Nat.zero_le _, ?_⟩, hof⟩
      dsimp only [updArea]
      by_cases hx : x = u
      · subst hx
        rw [if_pos rfl]
        have := (hu x).2
        omega
      · rw [if_neg hx]
        exact (hu x).2
    | offload_get n h =>
      refine ⟨hb, hft, hdl, hu, ⟨Nat.zero_le _, ?_⟩⟩
      dsimp only
      have := hof.2
      omega
    | offload_put n h => exact ⟨hb, hft, hdl, hu, ⟨Nat.zero_le _, h⟩⟩

/-- The pool capacities of the run.py configuration: one acute area A
with 12 beds, 18 fast-track spaces, download capacity 6, a Medicine
unit with 32 beds, offload container capacity 9999. -/
def runPoolCaps : PoolCaps :=
  { cap := fun a => if a = "A" then 12 else 0
    ft_cap := 18
    download_cap := 6
    unit_cap := fun u => if u = "Medicine" then 32 else 0
    offload_container_cap := 9999 }

/-- Witness for C5: the invariant holds at a concrete reachable state —
hour-0 offload level 1, one patient placed into area A. -/
theorem C5_capacity_invariant_witness :
    (1 : ℕ) ≤ runPoolCaps.offload_container_cap ∧
    ((∀ a, 0 ≤ ({ initOcc 1 with
        busy := updArea (initOcc 1).busy "A" ((initOcc 1).busy "A" + 1) } : PoolOcc).busy a ∧
        ({ initOcc 1 with
        busy := updArea (initOcc 1).busy "A" ((initOcc 1).busy "A" + 1) } : PoolOcc).busy a
          ≤ runPoolCaps.cap a) ∧
      (0 ≤ ({ initOcc 1 with
        busy := updArea (initOcc 1).busy "A" ((initOcc 1).busy "A" + 1) } : PoolOcc).ft_busy ∧
        ({ initOcc 1 with
        busy := updArea (initOcc 1).busy "A" ((initOcc 1).busy "A" + 1) } : PoolOcc).ft_busy
          ≤ runPoolCaps.ft_cap) ∧
      (0 ≤ ({ initOcc 1 with
        busy := updArea (initOcc 1).busy "A" ((initOcc 1).busy "A" + 1) } : PoolOcc).download_busy ∧
        ({ initOcc 1 with
        busy := updArea (initOcc 1).busy "A" ((initOcc 1).busy "A" + 1) } : PoolOcc).download_busy
          ≤ runPoolCaps.download_cap) ∧
      (∀ u, 0 ≤ ({ initOcc 1 with
        busy := updArea (initOcc 1).busy "A" ((initOcc 1).busy "A" + 1) } : PoolOcc).unit_busy u ∧
        ({ initOcc 1 with
        busy := updArea (initOcc 1).busy "A" ((initOcc 1).busy "A" + 1) } : PoolOcc).unit_busy u
          ≤ runPoolCaps.unit_cap u) ∧
      (0 ≤ ({ initOcc 1 with
        busy := updArea (initOcc 1).busy "A" ((initOcc 1).busy "A" + 1) } : PoolOcc).offload_level ∧
        ({ initOcc 1 with
        busy := updArea (initOcc 1).busy "A" ((initOcc 1).busy "A" + 1) } : PoolOcc).offload_level
          ≤ runPoolCaps.offload_container_cap)) :=
  ⟨by decide,
    C5_capacity_invariant runPoolCaps 1 (by decide) _
      (PoolReachable.step PoolReachable.refl
        (PoolStep.acute_place (initOcc 1) "A" (by decide)))⟩

/-! Abandonment vs. placement race (C6).

Projection of the simulation state onto one queued patient.  The two
process bodies below are the only code that sets `lwbs` or `bed_start`:
`_lwbs_watch` (lwbs.py:17-49) and the placement block of
`_acute_bed_dispatcher` (ed_treatment.py:329-353; the fast-track
dispatcher ed_treatment.py:375-399 is the same projection).  Each body
runs atomically — neither contains a yield between its checks and its
writes.  `in_queue` projects deque membership: `deque.remove(pid)`
succeeds exactly when the pid is still enqueued, and a patient is
appended to a waiting queue at most once (patient_generation.py:250-262,
ems_offload.py:73-93).  Patients placed into download holding never get
a watcher (see C9), but we keep the download fields so the watcher's
guard (lwbs.py:22-23) is embedded in full. -/

structure PatState where
  in_queue : Bool
  bed_start : Option ℚ
  download_start : Option ℚ
  download_end : Option ℚ
  is_ems : Bool
  lwbs : Bool

/-- Body of `_lwbs_watch` after its `timeout(lwbs_threshold)`
(lwbs.py:20-49), projected to one patient: bail out if placed
(bed_start set) or an EMS patient inside download holding; otherwise
remove from the queue and mark abandonment iff still enqueued
(the `ValueError` branch is the `in_queue = false` no-op). -/
def lwbsWatchBody (p : PatState) : PatState :=
  if p.bed_start.isSome then p
  else if p.is_ems && p.download_start.isSome && p.download_end.isNone then p
  else if p.in_queue then { p with in_queue := false, lwbs := true }
  else p

/-- Placement block of `_acute_bed_dispatcher`
(ed_treatment.py:329-353), projected to one patient: the queue removal
succeeds exactly when the patient is still enqueued (otherwise the
dispatcher rolls the doctor booking back and leaves the patient
untouched); on success `bed_start` is stamped and, if the patient sat
in download holding, `download_end` is stamped. -/
def dispatcherPlaceBody (now : ℚ) (p : PatState) : PatState :=
  if p.in_queue then
    if p.download_start.isSome && p.download_end.isNone then
      { p with in_queue := false, bed_start := some now, download_end := some now }
    else
      { p with in_queue := false, bed_start := some now }
  else p

/-- Arbitrary interleaving of the watcher firing and dispatcher
placement attempts (any order, any times — including both at the same
simulated instant, in either scheduler order). -/
inductive RaceStep : PatState → PatState → Prop
  | watcher (p : PatState) : RaceStep p (lwbsWatchBody p)
  | place (p : PatState) (now : ℚ) : RaceStep p (dispatcherPlaceBody now p)

/-- A freshly enqueued patient: queued, no bed, not abandoned. -/
def initPat (is_ems : Bool) (ds de : Option ℚ) : PatState :=
  { in_queue := true
    bed_start := none
    download_start := ds
    download_end := de
    is_ems := is_ems
    lwbs := false }

inductive RaceReachable (p0 : PatState) : PatState → Prop
  | refl : RaceReachable p0 p0
  | step {p p' : PatState} :
      RaceReachable p0 p → RaceStep p p' → RaceReachable p0 p'

/-- One race transition preserves the exclusivity invariant. -/
theorem race_inv_step {p p' : PatState} (hstep : RaceStep p p')
    (h1 : p.lwbs = true → p.bed_start = none ∧ p.in_queue = false)
    (h2 : p.bed_start.isSome → p.lwbs = false) :
    (p'.lwbs = true → p'.bed_start = none ∧ p'.in_queue = false) ∧
    (p'.bed_start.isSome → p'.lwbs = false) := by
  cases hstep with
  | watcher =>
    unfold lwbsWatchBody
    split
    · exact ⟨h1, h2⟩
    split
    · exact ⟨h1, h2⟩
    split
    · rename_i hbed _ _
      have hbn : p.bed_start = none := by
        cases hb : p.bed_start
        · rfl
        · rw [hb] at hbed
          simp at hbed
      refine ⟨fun _ => ⟨hbn, rfl⟩, fun hsome => ?_⟩
      dsimp only at hsome
      rw [hbn] at hsome
      simp at hsome
    · exact ⟨h1, h2⟩
  | place now =>
    unfold dispatcherPlaceBody
    split
    · rename_i hq
      have hl : p.lwbs = false := by
        cases hlw : p.lwbs
        · rfl
        · exact absurd hq (by simp [(h1 hlw).2])
      split
      · exact ⟨fun hx => absurd hx (by simp [hl]), fun _ => hl⟩
      · exact ⟨fun hx => absurd hx (by simp [hl]), fun _ => hl⟩
    · exact ⟨h1, h2⟩

/-- The inductive race invariant: an abandoned patient is out of the
queue with no bed, and a placed patient is never abandoned. -/
theorem race_invariant {is_ems : Bool} {ds de : Option ℚ} {s : PatState}
    (h : RaceReachable (initPat is_ems ds de) s) :
    (s.lwbs = true → s.bed_start = none ∧ s.in_queue = false) ∧
    (s.bed_start.isSome → s.lwbs = false) := by
  induction h with
  | refl => simp [initPat]
  | step _ hstep ih => exact race_inv_step hstep ih.1 ih.2

/-- C6: for every patient, the `lwbs = 1` mark and a set `bed_start`
timestamp are mutually exclusive for all time, under every interleaving
of the abandonment watcher and the dispatcher — including both firing
at the same simulated instant (either scheduler order is a `RaceStep`
sequence at equal times). -/
theorem C6_lwbs_and_bed_start_exclusive (is_ems : Bool) (ds de : Option ℚ)
    (s : PatState) (h : RaceReachable (initPat is_ems ds de) s) :
    ¬(s.lwbs = true ∧ s.bed_start.isSome = true) := by
  rintro ⟨hl, hb⟩
  have hinv := race_invariant h
  rw [hinv.2 hb] at hl
  cases hl

/-- Witness for C6: a concrete walk-in patient whose watcher fired
first (the patient abandoned); the exclusivity holds there. -/
theorem C6_lwbs_and_bed_start_exclusive_witness :
    ¬((lwbsWatchBody (initPat false none none)).lwbs = true ∧
      (lwbsWatchBody (initPat false none none)).bed_start.isSome = true) :=
  C6_lwbs_and_bed_start_exclusive false none none _
    (RaceReachable.step RaceReachable.refl (RaceStep.watcher _))

/-! Acute dispatcher scan and selection (C7).

`_acute_bed_dispatcher` (ed_treatment.py:306-362): one cycle builds a
candidate list over the whole queue, filters by free bed capacity of
the patient's assigned area, sorts by `(-(acuity + acuity_bonus),
arrival_time)` (a stable sort, so the first minimum wins), pops the top
candidate only, and either places it (re-scanning with `timeout(0)`)
or — when `_assign_doctor` returns `None` — leaves the queue untouched
and retries after `timeout(1)`. -/

/-- The queue-relevant slice of a patient record. -/
structure QPatient where
  pid : ℕ
  area : String
  acuity : ℚ
  acuity_bonus : ℚ
  arrival_time : ℚ

/-- Effective acuity `p.acuity + (p.acuity_bonus or 0.0)` (ed_treatment.py:318); the
`or 0.0` default is subsumed by storing the bonus as a number. -/
def effAcuity (p : QPatient) : ℚ := p.acuity + p.acuity_bonus

/-- Candidate filter (ed_treatment.py:316-318): the patient's assigned
area is a configured acute area (`area in self._cap`) with a free bed
(`self._busy[area] < self._cap[area]`). -/
def isCandidate (areas : List String) (cap busy : String → ℕ) (p : QPatient) : Bool :=
  decide (p.area ∈ areas) && decide (busy p.area < cap p.area)

/-- The candidate list built by scanning the entire queue in order
(ed_treatment.py:312-318). -/
def buildCandidates (q : List QPatient) (areas : List String)
    (cap busy : String → ℕ) : List QPatient :=
  q.filter (isCandidate areas cap busy)

/-- Strict comparison under the sort key `(-eff, arrival)`
(ed_treatment.py:320): `a` sorts strictly before `b`. -/
def candBetter (a b : QPatient) : Bool :=
  decide (effAcuity b < effAcuity a) ||
    (decide (effAcuity a = effAcuity b) && decide (a.arrival_time < b.arrival_time))

/-- Selection `cand.sort(key=...); cand[0]` — the head of a stable sort is the
first element with a minimal key, which this fold computes (a later
element replaces the current best only when strictly better). -/
def selectTop : List QPatient → Option QPatient
  | [] => none
  | p :: ps => some (ps.foldl (fun best c => if candBetter c best then c else best) p)

/-- Relation stating `a` sorts no later than `b` under the key `(-eff, arrival)`: higher
effective acuity, or equal acuity and no later arrival. -/
def keyLE (a b : QPatient) : Prop :=
  effAcuity b < effAcuity a ∨
    (effAcuity a = effAcuity b ∧ a.arrival_time ≤ b.arrival_time)

theorem keyLE_refl (a : QPatient) : keyLE a a := Or.inr ⟨rfl, le_refl _⟩

theorem keyLE_trans {a b c : QPatient} (h1 : keyLE a b) (h2 : keyLE b c) :
    keyLE a c := by
  rcases h1 with h1 | ⟨h1e, h1a⟩
  · rcases h2 with h2 | ⟨h2e, h2a⟩
    · exact Or.inl (lt_trans h2 h1)
    · exact Or.inl (h2e ▸ h1)
  · rcases h2 with h2 | ⟨h2e, h2a⟩
    · exact Or.inl (by rw [h1e]; exact h2)
    · exact Or.inr ⟨h1e.trans h2e, le_trans h1a h2a⟩

/-- A non-strictly-better challenger leaves the current best no later
in sort order. -/
theorem keyLE_of_not_candBetter {c best : QPatient}
    (h : ¬ candBetter c best = true) : keyLE best c := by
  unfold candBetter at h
  simp only [Bool.or_eq_true, Bool.and_eq_true, decide_eq_true_eq, not_or, not_and] at h
  obtain ⟨h1, h2⟩ := h
  rcases lt_or_eq_of_le (le_of_not_lt h1) with hlt | heq
  · exact Or.inl hlt
  · exact Or.inr ⟨heq.symm, le_of_not_lt (h2 heq)⟩

theorem keyLE_of_candBetter {c best : QPatient}
    (h : candBetter c best = true) : keyLE c best := by
  unfold candBetter at h
  simp only [Bool.or_eq_true, Bool.and_eq_true, decide_eq_true_eq] at h
  rcases h with h | ⟨he, ha⟩
  · exact Or.inl h
  · exact Or.inr ⟨he, le_of_lt ha⟩

/-- The fold underlying `selectTop` returns an element of the scanned
prefix (or the seed) that is no later in sort order than the seed and
than every scanned element. -/
theorem foldl_select_spec (l : List QPatient) (acc : QPatient) :
    (l.foldl (fun best c => if candBetter c best then c else best) acc = acc ∨
      l.foldl (fun best c => if candBetter c best then c else best) acc ∈ l) ∧
    keyLE (l.foldl (fun best c => if candBetter c best then c else best) acc) acc ∧
    ∀ d ∈ l, keyLE (l.foldl (fun best c => if candBetter c best then c else best) acc) d := by
  induction l generalizing acc with
  | nil => exact ⟨Or.inl rfl, keyLE_refl acc, fun d hd => absurd hd (List.not_mem_nil d)⟩
  | cons c cs ih =>
    simp only [List.foldl_cons]
    by_cases hc : candBetter c acc = true
    · rw [if_pos hc]
      obtain ⟨hmem, hacc, hall⟩ := ih c
      refine ⟨?_, keyLE_trans hacc (keyLE_of_candBetter hc), ?_⟩
      · rcases hmem with h | h
        · exact Or.inr (by rw [h]; exact List.mem_cons_self c cs)
        · exact Or.inr (List.mem_cons_of_mem c h)
      · intro d hd
        rcases List.mem_cons.mp hd with rfl | hd
        · exact hacc
        · exact hall d hd
    · rw [if_neg hc]
      obtain ⟨hmem, hacc, hall⟩ := ih acc
      refine ⟨?_, hacc, ?_⟩
      · rcases hmem with h | h
        · exact Or.inl h
        · exact Or.inr (List.mem_cons_of_mem c h)
      · intro d hd
        rcases List.mem_cons.mp hd with rfl | hd
        · exact keyLE_trans hacc (keyLE_of_not_candBetter hc)
        · exact hall d hd

/-- Lemma: `selectTop` returns a member of the list that is no later in sort
order than every element. -/
theorem selectTop_spec {l : List QPatient} {c : QPatient}
    (h : selectTop l = some c) : c ∈ l ∧ ∀ d ∈ l, keyLE c d := by
  match l, h with
  | p :: ps, h =>
    simp only [selectTop, Option.some.injEq] at h
    obtain ⟨hmem, hacc, hall⟩ := foldl_select_spec ps p
    subst h
    constructor
    · rcases hmem with h | h
      · rw [h]
        exact List.mem_cons_self p ps
      · exact List.mem_cons_of_mem p h
    · intro d hd
      rcases List.mem_cons.mp hd with rfl | hd
      · exact hacc
      · exact hall d hd

/-- One dispatcher cycle's decision (ed_treatment.py:306-362), given
whether `_assign_doctor` finds a doctor for the top candidate. -/
inductive CycleOutcome
  | no_candidate
  | no_doctor
  | placed (pid : ℕ)
deriving DecidableEq

/-- Outcome of one `_acute_bed_dispatcher` cycle. -/
def acuteCycleOutcome (q : List QPatient) (areas : List String)
    (cap busy : String → ℕ) (doctor_available : Bool) : CycleOutcome :=
  match selectTop (buildCandidates q areas cap busy) with
  | none => CycleOutcome.no_candidate
  | some c => if doctor_available then CycleOutcome.placed c.pid
              else CycleOutcome.no_doctor

/-- Delay before the next scan: `timeout(0)` after a placement,
`timeout(1)` otherwise (ed_treatment.py:326, 359-362). -/
def acuteCycleDelay (q : List QPatient) (areas : List String)
    (cap busy : String → ℕ) (doctor_available : Bool) : ℚ :=
  match acuteCycleOutcome q areas cap busy doctor_available with
  | CycleOutcome.placed _ => 0
  | _ => 1

/-- The queue after one cycle: `deque.remove(pid)` of the placed
candidate (first occurrence), otherwise unchanged
(ed_treatment.py:330-331). -/
def acuteCycleQueue (q : List QPatient) (areas : List String)
    (cap busy : String → ℕ) (doctor_available : Bool) : List QPatient :=
  match acuteCycleOutcome q areas cap busy doctor_available with
  | CycleOutcome.placed pid => q.eraseP (fun p => decide (p.pid = pid))
  | _ => q

/-- C7: each cycle, the acute dispatcher considers every queued patient
whose assigned area has free bed capacity, selects the candidate with
the highest effective acuity (acuity + bonus) breaking ties by earliest
arrival, attempts doctor reservation for that top candidate only; with
no doctor available it places no one, leaves the queue unchanged and
waits 1 time unit before the next full scan; after a successful
placement it removes exactly that candidate and re-scans with zero
delay. -/
theorem C7_acute_dispatcher_cycle (q : List QPatient) (areas : List String)
    (cap busy : String → ℕ) (doctor_available : Bool) (c : QPatient)
    (hsel : selectTop (buildCandidates q areas cap busy) = some c) :
    (c ∈ q ∧ isCandidate areas cap busy c = true) ∧
    (∀ d ∈ q, isCandidate areas cap busy d = true → keyLE c d) ∧
    (doctor_available = false →
      acuteCycleOutcome q areas cap busy doctor_available = CycleOutcome.no_doctor ∧
      acuteCycleQueue q areas cap busy doctor_available = q ∧
      acuteCycleDelay q areas cap busy doctor_available = 1) ∧
    (doctor_available = true →
      acuteCycleOutcome q areas cap busy doctor_available = CycleOutcome.placed c.pid ∧
      acuteCycleQueue q areas cap busy doctor_available
        = q.eraseP (fun p => decide (p.pid = c.pid)) ∧
      acuteCycleDelay q areas cap busy doctor_available = 0) := by
  obtain ⟨hmem, hall⟩ := selectTop_spec hsel
  have hcand : isCandidate areas cap busy c = true :=
    List.of_mem_filter (by exact hmem)
  have hqmem : c ∈ q := List.mem_of_mem_filter (by exact hmem)
  refine ⟨⟨hqmem, hcand⟩, ?_, ?_, ?_⟩
  · intro d hd hdc
    exact hall d (List.mem_filter.mpr ⟨hd, hdc⟩)
  · intro hdoc
    subst hdoc
    unfold acuteCycleQueue acuteCycleDelay acuteCycleOutcome
    rw [hsel]
    exact ⟨rfl, rfl, rfl⟩
  · intro hdoc
    subst hdoc
    unfold acuteCycleQueue acuteCycleDelay acuteCycleOutcome
    rw [hsel]
    exact ⟨rfl, rfl, rfl⟩

/-- A concrete acute queue: pid 1 (area A, eff. acuity 1, arrived 0),
pid 2 (area A, eff. acuity 2 + 2/5, arrived 3), pid 3 (area B — not a
configured area, so not a candidate). -/
def c7q : List QPatient :=
  [ { pid := 1, area := "A", acuity := 1, acuity_bonus := 0, arrival_time := 0 },
    { pid := 2, area := "A", acuity := 2, acuity_bonus := 2/5, arrival_time := 3 },
    { pid := 3, area := "B", acuity := 5, acuity_bonus := 0, arrival_time := 1 } ]

def c7top : QPatient :=
  { pid := 2, area := "A", acuity := 2, acuity_bonus := 2/5, arrival_time := 3 }

def c7cap : String → ℕ := fun a => if a = "A" then 2 else 0

def c7busy : String → ℕ := fun a => if a = "A" then 1 else 0

/-- Witness for C7 at the concrete queue `c7q`, one free bed in area A
and a doctor available: pid 2 is selected and placed with zero delay. -/
theorem C7_acute_dispatcher_cycle_witness :
    ((c7top ∈ c7q ∧ isCandidate ["A"] c7cap c7busy c7top = true) ∧
    (∀ d ∈ c7q, isCandidate ["A"] c7cap c7busy d = true → keyLE c7top d) ∧
    (true = false →
      acuteCycleOutcome c7q ["A"] c7cap c7busy true = CycleOutcome.no_doctor ∧
      acuteCycleQueue c7q ["A"] c7cap c7busy true = c7q ∧
      acuteCycleDelay c7q ["A"] c7cap c7busy true = 1) ∧
    (true = true →
      acuteCycleOutcome c7q ["A"] c7cap c7busy true = CycleOutcome.placed c7top.pid ∧
      acuteCycleQueue c7q ["A"] c7cap c7busy true
        = c7q.eraseP (fun p => decide (p.pid = c7top.pid)) ∧
      acuteCycleDelay c7q ["A"] c7cap c7busy true = 0)) :=
  C7_acute_dispatcher_cycle c7q ["A"] c7cap c7busy true c7top (by
    norm_num [c7q, c7top, c7cap, c7busy, selectTop, buildCandidates,
      isCandidate, candBetter, effAcuity, List.filter, List.foldl])

/-! Injected draw functions and their fallbacks (C2).

Each injected zero-argument draw is modelled by its observable outcome:
it returns a value that `float()` accepts, returns a non-numeric value
(`float()` raises `TypeError`/`ValueError`), or raises itself.  A call
site that wraps the conversion in `try/except Exception` absorbs both
failure modes; a site that only checks `callable(...)` does not.
`Except Unit ℚ` is the site's result: `.error ()` means the exception
escapes the call site into the treatment process (simpy then rethrows
it at `env.run`, aborting the run). -/

inductive DrawOutcome
  | num (q : ℚ)
  | nonNum
  | raises
deriving DecidableEq

/-- Source `_draw_assess_minutes` (ed_treatment.py:195-199):
`try: return float(doc[...]()) except Exception: return 15.0`. -/
def draw_assess_minutes : DrawOutcome → ℚ
  | DrawOutcome.num q => q
  | _ => 15

/-- Source `DoctorManager._safe_call` (doctor.py:83-88). -/
def safe_call : DrawOutcome → ℚ → ℚ
  | DrawOutcome.num q, _ => q
  | _, fallback => fallback

/-- Source `_reassess_minutes` (ed_treatment.py:202-216): `none` models a
non-callable draw; a numeric value is floored at 1.0; any exception
falls through to the 20.0 fallback. -/
def reassess_minutes : Option DrawOutcome → ℚ
  | some (DrawOutcome.num q) => max q 1
  | _ => 20

/-- Lab turnaround (orders.py:54-61): exceptions leave `tat = 0`, and a
non-positive `tat` is replaced by 45.0. -/
def labs_tat_minutes : Option DrawOutcome → ℚ
  | some (DrawOutcome.num q) => if q ≤ 0 then 45 else q
  | _ => 45

/-- Imaging duration (orders.py:85-94): same guard shape as labs, with
the 45.0 fallback. -/
def di_duration_minutes : Option DrawOutcome → ℚ
  | some (DrawOutcome.num q) => if q ≤ 0 then 45 else q
  | _ => 45

/-- Consult duration at the admit path (ed_treatment.py:449-450):
`c_min = float(c_draw()) if callable(c_draw) else 60.0` — there is no
`try/except` here, so only the non-callable case gets the 60.0
fallback; an exception from the draw, or a non-numeric return, escapes
the treatment process. -/
def consult_time_minutes : Option DrawOutcome → Except Unit ℚ
  | none => Except.ok 60
  | some (DrawOutcome.num q) => Except.ok q
  | some DrawOutcome.nonNum => Except.error ()
  | some DrawOutcome.raises => Except.error ()

/-- Offload service duration (ems_offload.py:48-55): guarded; on any
failure `dur` stays `None` and is replaced by a fresh `u(5, 10)` draw
(passed here as `fb`), not by a fixed constant. -/
def offload_service_minutes : Option DrawOutcome → ℚ → ℚ
  | some (DrawOutcome.num q), _ => q
  | _, fb => fb

/-- Crew-clear duration (ems_offload.py:99-106): guarded, fallback
42.5. -/
def crew_clear_minutes : Option DrawOutcome → ℚ
  | some (DrawOutcome.num q) => q
  | _ => 85/2

/-- Inpatient length-of-stay (inpatient_flow.py:107-111): guarded,
fallback `24*60.0`. -/
def inpatient_los_draw_minutes : DrawOutcome → ℚ
  | DrawOutcome.num q => q
  | _ => 1440

/-- Counterexample to C2: at the consult-duration call site a raising
draw function is not replaced by a fallback constant — the exception
propagates out of the call site (`float(c_draw())` is not wrapped in
`try/except`, ed_treatment.py:450), so it aborts the treatment process
and the run, contradicting the claim for that site. -/
theorem C2_consult_draw_exception_propagates :
    consult_time_minutes (some DrawOutcome.raises) = Except.error () ∧
    consult_time_minutes (some DrawOutcome.nonNum) = Except.error () := by
  exact ⟨rfl, rfl⟩

/-- C2 amended: at the assessment, reassessment, labs, imaging, offload
service, crew clear and inpatient length-of-stay call sites, a draw
that raises or returns a non-numeric value is replaced locally by that
site's fallback (15, 20, 45, 45, a fresh uniform 5-10 draw, 42.5 and
1440 minutes respectively) and never propagates; at the
consult-duration site only a non-callable draw gets the 60-minute
fallback, while an exception or non-numeric result from a callable
draw propagates. -/
theorem C2_amended_draw_fallbacks :
    (draw_assess_minutes DrawOutcome.raises = 15 ∧
      draw_assess_minutes DrawOutcome.nonNum = 15 ∧
      ∀ q, draw_assess_minutes (DrawOutcome.num q) = q) ∧
    (safe_call DrawOutcome.raises 15 = 15 ∧ safe_call DrawOutcome.nonNum 15 = 15 ∧
      ∀ q d, safe_call (DrawOutcome.num q) d = q) ∧
    (reassess_minutes none = 20 ∧ reassess_minutes (some DrawOutcome.raises) = 20 ∧
      reassess_minutes (some DrawOutcome.nonNum) = 20 ∧
      ∀ q, reassess_minutes (some (DrawOutcome.num q)) = max q 1) ∧
    (labs_tat_minutes none = 45 ∧ labs_tat_minutes (some DrawOutcome.raises) = 45 ∧
      labs_tat_minutes (some DrawOutcome.nonNum) = 45 ∧
      ∀ q, labs_tat_minutes (some (DrawOutcome.num q)) = if q ≤ 0 then 45 else q) ∧
    (di_duration_minutes none = 45 ∧ di_duration_minutes (some DrawOutcome.raises) = 45 ∧
      di_duration_minutes (some DrawOutcome.nonNum) = 45 ∧
      ∀ q, di_duration_minutes (some (DrawOutcome.num q)) = if q ≤ 0 then 45 else q) ∧
    (∀ fb, offload_service_minutes none fb = fb ∧
      offload_service_minutes (some DrawOutcome.raises) fb = fb ∧
      offload_service_minutes (some DrawOutcome.nonNum) fb = fb ∧
      ∀ q, offload_service_minutes (some (DrawOutcome.num q)) fb = q) ∧
    (crew_clear_minutes none = 85/2 ∧ crew_clear_minutes (some DrawOutcome.raises) = 85/2 ∧
      crew_clear_minutes (some DrawOutcome.nonNum) = 85/2 ∧
      ∀ q, crew_clear_minutes (some (DrawOutcome.num q)) = q) ∧
    (inpatient_los_draw_minutes DrawOutcome.raises = 1440 ∧
      inpatient_los_draw_minutes DrawOutcome.nonNum = 1440 ∧
      ∀ q, inpatient_los_draw_minutes (DrawOutcome.num q) = q) ∧
    (consult_time_minutes none = Except.ok 60 ∧
      (∀ q, consult_time_minutes (some (DrawOutcome.num q)) = Except.ok q) ∧
      consult_time_minutes (some DrawOutcome.raises) = Except.error () ∧
      consult_time_minutes (some DrawOutcome.nonNum) = Except.error ()) := by
  refine ⟨⟨rfl, rfl, fun q => rfl⟩, ⟨rfl, rfl, fun q d => rfl⟩,
    ⟨rfl, rfl, rfl, fun q => rfl⟩, ⟨rfl, rfl, rfl, fun q => rfl⟩,
    ⟨rfl, rfl, rfl, fun q => rfl⟩, fun fb => ⟨rfl, rfl, rfl, fun q => rfl⟩,
    ⟨rfl, rfl, rfl, fun q => rfl⟩, ⟨rfl, rfl, fun q => rfl⟩,
    ⟨rfl, fun q => rfl, rfl, rfl⟩⟩

/-! Enqueue sites and abandonment-watcher launches (C9).

The waiting-list state and the set of patients for which an
`env.process(self._lwbs_watch(...))` call was issued (`watchers`).
Enqueue sites in the source:
* walk-ins — patient_generation.py:250-266 (queue append, then the
  watcher is launched at line 265);
* EMS after offload — ems_offload.py:63-83 (fallback branches append to
  the acute queue and launch a watcher; the critical waitlist branch
  launches none);
* `_place_into_download` — ems_offload.py:85-93 appends to the acute
  queue and launches NO watcher. -/

structure FlowState where
  acute_q : List ℕ
  fasttrack_q : List ℕ
  download_busy : ℕ
  download_wait : List ℕ
  watchers : List ℕ

/-- Walk-in enqueue (patient_generation.py:250-266): append to the
fast-track or acute queue and launch `_lwbs_watch` for the patient. -/
def enqueue_walkin (st : FlowState) (pid : ℕ) (is_fast : Bool) : FlowState :=
  if is_fast then
    { st with fasttrack_q := st.fasttrack_q ++ [pid], watchers := st.watchers ++ [pid] }
  else
    { st with acute_q := st.acute_q ++ [pid], watchers := st.watchers ++ [pid] }

/-- Source `_place_into_download` (ems_offload.py:85-93): occupy a download
slot and append the patient to the acute queue; no `_lwbs_watch` is
launched here (the acuity-bonus bump is tracked in the C7 model). -/
def place_into_download (st : FlowState) (pid : ℕ) : FlowState :=
  { st with download_busy := st.download_busy + 1, acute_q := st.acute_q ++ [pid] }

/-- Post-offload routing (ems_offload.py:63-83): direct/critical
patients go to download holding when it has room; critical patients
join the download waitlist when it is full (no watcher); everyone else
is appended to the acute queue with a watcher. -/
def ems_offload_route (st : FlowState) (pid : ℕ)
    (wants_download is_critical : Bool) (download_cap : ℕ) : FlowState :=
  if wants_download && decide (st.download_busy < download_cap) then
    place_into_download st pid
  else if wants_download && is_critical then
    { st with download_wait := st.download_wait ++ [pid] }
  else
    { st with acute_q := st.acute_q ++ [pid], watchers := st.watchers ++ [pid] }

def c9st0 : FlowState :=
  { acute_q := [], fasttrack_q := [], download_busy := 0,
    download_wait := [], watchers := [] }

/-- Counterexample to C9: `_place_into_download` enqueues patient 7
into the acute waiting queue but launches no abandonment watcher at
that enqueue point, so it is not the case that a watcher is launched at
every enqueue into the fast-track or acute queue. -/
theorem C9_download_enqueue_launches_no_watcher :
    (place_into_download c9st0 7).acute_q = [7] ∧
    (place_into_download c9st0 7).watchers = [] :=
  ⟨rfl, rfl⟩

/-- C9 amended: an abandonment watcher is launched at enqueue time for
every walk-in enqueue (fast-track or acute) and for the EMS post-offload
fallback enqueues; when an EMS patient is placed into download holding
the acute-queue enqueue launches no watcher, and a critical patient
joining the download waitlist gets no watcher either.  A launched
watcher (after its `timeout(p.lwbs_threshold)`, lwbs.py:18) removes the
patient from its queue and marks abandonment only if the patient is
still queued, unplaced and not inside download holding; a placed
patient is left untouched. -/
theorem C9_amended_watcher_launch_sites (st : FlowState) (pid : ℕ) (cap : ℕ)
    (hfull : cap ≤ st.download_busy)
    (pq : PatState) (hq : pq.in_queue = true) (hbed : pq.bed_start = none)
    (hnd : (pq.is_ems && pq.download_start.isSome && pq.download_end.isNone) = false)
    (pb : PatState) (hpb : pb.bed_start.isSome = true) :
    ((enqueue_walkin st pid true).fasttrack_q = st.fasttrack_q ++ [pid] ∧
      (enqueue_walkin st pid true).watchers = st.watchers ++ [pid]) ∧
    ((enqueue_walkin st pid false).acute_q = st.acute_q ++ [pid] ∧
      (enqueue_walkin st pid false).watchers = st.watchers ++ [pid]) ∧
    ((ems_offload_route st pid false false cap).acute_q = st.acute_q ++ [pid] ∧
      (ems_offload_route st pid false false cap).watchers = st.watchers ++ [pid]) ∧
    ((ems_offload_route st pid true false cap).acute_q = st.acute_q ++ [pid] ∧
      (ems_offload_route st pid true false cap).watchers = st.watchers ++ [pid]) ∧
    ((ems_offload_route st pid true true cap).download_wait
        = st.download_wait ++ [pid] ∧
      (ems_offload_route st pid true true cap).watchers = st.watchers) ∧
    ((place_into_download st pid).acute_q = st.acute_q ++ [pid] ∧
      (place_into_download st pid).watchers = st.watchers) ∧
    ((lwbsWatchBody pq).lwbs = true ∧ (lwbsWatchBody pq).in_queue = false) ∧
    lwbsWatchBody pb = pb := by
  have hnotlt : ¬(st.download_busy < cap) := Nat.not_lt.mpr hfull
  refine ⟨⟨rfl, rfl⟩, ⟨rfl, rfl⟩, ?_, ?_, ?_, ⟨rfl, rfl⟩, ?_, ?_⟩
  · unfold ems_offload_route
    simp
  · unfold ems_offload_route
    simp [hnotlt]
  · unfold ems_offload_route
    simp [hnotlt]
  · unfold lwbsWatchBody
    rw [hbed]
    simp only [Option.isSome_none, Bool.false_eq_true, if_false]
    rw [hnd]
    simp only [Bool.false_eq_true, if_false]
    rw [hq]
    simp
  · unfold lwbsWatchBody
    rw [if_pos hpb]

def c9st1 : FlowState :=
  { acute_q := [], fasttrack_q := [], download_busy := 1,
    download_wait := [], watchers := [] }

/-- Witness for C9's amended theorem: download holding full (cap 1,
busy 1), a queued unplaced walk-in, and a placed patient. -/
theorem C9_amended_watcher_launch_sites_witness :
    ((enqueue_walkin c9st1 7 true).fasttrack_q = c9st1.fasttrack_q ++ [7] ∧
      (enqueue_walkin c9st1 7 true).watchers = c9st1.watchers ++ [7]) ∧
    ((enqueue_walkin c9st1 7 false).acute_q = c9st1.acute_q ++ [7] ∧
      (enqueue_walkin c9st1 7 false).watchers = c9st1.watchers ++ [7]) ∧
    ((ems_offload_route c9st1 7 false false 1).acute_q = c9st1.acute_q ++ [7] ∧
      (ems_offload_route c9st1 7 false false 1).watchers = c9st1.watchers ++ [7]) ∧
    ((ems_offload_route c9st1 7 true false 1).acute_q = c9st1.acute_q ++ [7] ∧
      (ems_offload_route c9st1 7 true false 1).watchers = c9st1.watchers ++ [7]) ∧
    ((ems_offload_route c9st1 7 true true 1).download_wait
        = c9st1.download_wait ++ [7] ∧
      (ems_offload_route c9st1 7 true true 1).watchers = c9st1.watchers) ∧
    ((place_into_download c9st1 7).acute_q = c9st1.acute_q ++ [7] ∧
      (place_into_download c9st1 7).watchers = c9st1.watchers) ∧
    ((lwbsWatchBody (initPat false none none)).lwbs = true ∧
      (lwbsWatchBody (initPat false none none)).in_queue = false) ∧
    lwbsWatchBody { initPat false none none with bed_start := some 0 }
      = { initPat false none none with bed_start := some 0 } :=
  C9_amended_watcher_launch_sites c9st1 7 1 (by decide)
    (initPat false none none) rfl rfl rfl
    { initPat false none none with bed_start := some 0 } rfl

/-! Startup configuration validation (C3).

`SingleSiteSim.__init__` (ed.py:27-91) performs exactly one
configuration check before the simulation runs: the
`assert len(cfg.ems.offload_nurses_per_hour) == 24` at ed.py:75.  The
doctor-coverage check (`_init_doctors`, ed_treatment.py:23-53, which
raises `ValueError("No doctors configured for area ...")`) and the
unknown-area check (`_validate_doctors`, patient_generation.py:318-327)
are defined but never invoked anywhere — `__init__` does not call them
(the comment at ed.py:44, "must be set before _init_doctors", documents
the intent that it should).  Consequently `self._doctors_by_area` is
never initialised, and the first dispatcher cycle that finds a queued
candidate crashes with `AttributeError` inside `_assign_doctor`
(ed_treatment.py:324, 168) even on a fully valid configuration. -/

structure FastTrackCfg where
  enabled : Bool
  name : String
  assessment_spaces : ℕ

structure SimCfg where
  areas : List (String × ℕ)
  doctors : List DoctorConfig
  fasttrack : Option FastTrackCfg
  offload_nurses_per_hour : List ℕ

/-- ed.py:46: `_ft_enabled = bool(ft_cfg and ft_cfg.enabled)`. -/
def ftEnabled (cfg : SimCfg) : Bool := (cfg.fasttrack.map (·.enabled)).getD false

/-- ed.py:48: `_ft_cap = int(getattr(ft_cfg, "assessment_spaces", 0) or 0)`. -/
def ftCap (cfg : SimCfg) : ℕ := (cfg.fasttrack.map (·.assessment_spaces)).getD 0

/-- ed.py:47: `_ft_name = ft_cfg.name if _ft_enabled else "FAST"`. -/
def ftName (cfg : SimCfg) : String :=
  if ftEnabled cfg then (cfg.fasttrack.map (·.name)).getD "FAST" else "FAST"

/-- Source `_init_doctors` (ed_treatment.py:23-53): every placing area (all
acute areas, plus fast-track when enabled with capacity) must have at
least one configured doctor, else `ValueError`. -/
def init_doctors (cfg : SimCfg) : Except String Unit :=
  let areas_needing : List String :=
    (cfg.areas.map Prod.fst) ++
      (if ftEnabled cfg && decide (0 < ftCap cfg) then [ftName cfg] else [])
  match areas_needing.find? (fun a => ¬ cfg.doctors.any (fun d => d.area = a)) with
  | some a => Except.error ("No doctors configured for area " ++ a)
  | none => Except.ok ()

/-- Source `_validate_doctors` (patient_generation.py:318-327): every doctor
must be assigned to a defined acute area or to the fast-track name. -/
def validate_doctors (cfg : SimCfg) : Except String Unit :=
  let defined := cfg.areas.map Prod.fst
  let ftn : Option String := cfg.fasttrack.map (·.name)
  match cfg.doctors.find?
      (fun d => ¬ (decide (d.area ∈ defined) || ftn.elim false (fun n => d.area = n))) with
  | some d =>
      Except.error ("Doctor " ++ d.name ++ " assigned to unknown area " ++ d.area)
  | none => Except.ok ()

/-- The validation that `SingleSiteSim.__init__` actually performs
before any simulated event: only the offload-profile length assert
(ed.py:75).  Neither `init_doctors` nor `validate_doctors` is called
during construction. -/
def singleSiteInit (cfg : SimCfg) : Except String Unit :=
  if cfg.offload_nurses_per_hour.length = 24 then Except.ok ()
  else Except.error "ems.offload_nurses_per_hour must have length 24 (one day)."

def isErr {α : Type} (e : Except String α) : Bool :=
  match e with
  | Except.error _ => true
  | Except.ok _ => false

/-- An area with beds but no doctors at all. -/
def c3cfgNoDocs : SimCfg :=
  { areas := [("A", 12)]
    doctors := []
    fasttrack := none
    offload_nurses_per_hour := List.replicate 24 1 }

/-- A doctor assigned to an unknown area "B". -/
def c3cfgUnknownArea : SimCfg :=
  { areas := [("A", 12)]
    doctors := [{ name := "DrX", area := "B", start_minute := 0,
                  shift_minutes := 720, max_active_panel := 10,
                  hourly_max_signups := [3] }]
    fasttrack := none
    offload_nurses_per_hour := List.replicate 24 1 }

/-- C3 (code bug): constructing the simulation raises no configuration
error for an area without doctor coverage, nor for a doctor assigned to
an unknown area — the checks that would reject both configurations
exist in the source but are never invoked at startup. -/
theorem C3_startup_raises_no_config_error :
    isErr (singleSiteInit c3cfgNoDocs) = false ∧
    isErr (init_doctors c3cfgNoDocs) = true ∧
    isErr (singleSiteInit c3cfgUnknownArea) = false ∧
    isErr (validate_doctors c3cfgUnknownArea) = true := by
  refine ⟨?_, ?_, ?_, ?_⟩ <;> decide

/-! Inpatient admission, boarding and transfer (C1, C4).

`InpatientFlowMixin` (inpatient_flow.py) plus the consult-admit tail of
`_treat_acute_with_assigned_doctor` (ed_treatment.py:444-478).  The
one-shot "transferred" signal `p._admit_event` is `Option Bool`:
`none` — the attribute was never created; `some false` — the
`simpy.Event` was created (waitlist branch, inpatient_flow.py:72) and
is still pending; `some true` — it was succeeded.  Nothing in the
source ever calls `succeed()` on it. -/

/-- Generic single-key update of a `String`-keyed dictionary. -/
def updFn {α : Type} (f : String → α) (a : String) (v : α) : String → α :=
  fun x => if x = a then v else f x

/-- The patient fields touched by the admission/boarding flow. -/
structure BoardPatient where
  pid : ℕ
  area : String
  lwbs : ℕ
  consult_admit_flag : ℕ
  admit_flag : ℕ
  admit_service : Option String
  admit_unit : Option String
  admit_decision_time : Option ℚ
  admit_event : Option Bool
  inpatient_start : Option ℚ
  emergency_inpatient_time : Option ℚ
  inpatient_los_minutes : Option ℚ
  disposition_time : Option ℚ

/-- The state the inpatient flow reads and writes: configured units
(`_unit_cap` keys), unit capacities/occupancy/waitlists, and the ED bed
counters released at transfer. -/
structure InpatientState where
  units : List String
  unit_cap : String → ℕ
  unit_busy : String → ℕ
  unit_wait : String → List ℕ
  ed_areas : List String
  busy : String → ℕ
  ft_name : String
  ft_busy : ℕ

/-- Source `_free_ed_bed_on_transfer` (inpatient_flow.py:125-139): release the
fast-track counter when the patient's area is the fast-track name,
else the acute counter (when the area exists), flooring at 0. -/
def free_ed_bed_on_transfer (st : InpatientState) (p : BoardPatient) : InpatientState :=
  if p.area = st.ft_name then
    { st with ft_busy := st.ft_busy - 1 }
  else if p.area ∈ st.ed_areas then
    { st with busy := updFn st.busy p.area (st.busy p.area - 1) }
  else st

/-- Source `_start_inpatient_stay` (inpatient_flow.py:89-123): stamp
`inpatient_start`, compute the boarding duration, free the ED bed,
occupy the unit bed, and draw the length of stay (fallback 1440 on a
draw failure, via `inpatient_los_draw_minutes`).  The scheduled
end-of-stay process is modelled separately
(`inpatient_discharge_free_bed`).  Note: `p._admit_event` is never
touched here — no code path resolves the signal. -/
def start_inpatient_stay (st : InpatientState) (p : BoardPatient)
    (unit : String) (now : ℚ) (los : DrawOutcome) :
    InpatientState × BoardPatient :=
  let p1 : BoardPatient :=
    { p with
      inpatient_start := some now
      emergency_inpatient_time := p.admit_decision_time.map (fun t => now - t)
      inpatient_los_minutes := some (inpatient_los_draw_minutes los) }
  let st1 := free_ed_bed_on_transfer st p1
  ({ st1 with unit_busy := updFn st1.unit_busy unit (st1.unit_busy unit + 1) }, p1)

/-- Source `_admit_request` (inpatient_flow.py:37-75): map the service to a
unit; unknown unit → record `admit_failed_no_unit` and change nothing;
otherwise mark the admission fields and either start the stay (free
unit bed) or enqueue to the unit waitlist, creating the pending
`_admit_event` (kept if it already exists). -/
def admit_request (svc_to_unit : String → String) (st : InpatientState)
    (p : BoardPatient) (now : ℚ) (service : String) (los : DrawOutcome) :
    InpatientState × BoardPatient :=
  let unit := svc_to_unit service
  if unit ∈ st.units then
    let p1 : BoardPatient :=
      { p with
        admit_flag := 1
        admit_service := some service
        admit_unit := some unit
        admit_decision_time := some now
        emergency_inpatient_time := none
        inpatient_start := none
        inpatient_los_minutes := none }
    if st.unit_busy unit < st.unit_cap unit then
      start_inpatient_stay st p1 unit now los
    else
      ({ st with unit_wait := updFn st.unit_wait unit (st.unit_wait unit ++ [p.pid]) },
        { p1 with admit_event := if p1.admit_event = none then some false else p1.admit_event })
  else
    (st, p)

/-- End of the inpatient stay (`_inpatient_proc`,
inpatient_flow.py:114-121): free the unit bed (floored at 0); the
waitlist backfill follows as `try_place_inpatient_from_waitlist`. -/
def inpatient_discharge_free_bed (st : InpatientState) (unit : String) : InpatientState :=
  { st with unit_busy := updFn st.unit_busy unit (st.unit_busy unit - 1) }

/-- Loop body of `_try_place_inpatient_from_waitlist`
(inpatient_flow.py:77-87): pop waitlisted pids while a bed is free,
skipping missing or already-transferred patients; returns the updated
state, patient map, and the pids left queued. -/
def try_place_go (unit : String) (now : ℚ) (los : DrawOutcome) :
    List ℕ → InpatientState → (ℕ → Option BoardPatient) →
    InpatientState × (ℕ → Option BoardPatient) × List ℕ
  | [], st, pats => (st, pats, [])
  | pid :: rest, st, pats =>
    if st.unit_busy unit < st.unit_cap unit then
      match pats pid with
      | none => try_place_go unit now los rest st pats
      | some p =>
        if p.inpatient_start.isSome then try_place_go unit now los rest st pats
        else
          let r := start_inpatient_stay st p unit now los
          try_place_go unit now los rest r.1
            (fun x => if x = pid then some r.2 else pats x)
    else (st, pats, pid :: rest)

/-- Source `_try_place_inpatient_from_waitlist` (inpatient_flow.py:77-87). -/
def try_place_inpatient_from_waitlist (st : InpatientState) (unit : String)
    (pats : ℕ → Option BoardPatient) (now : ℚ) (los : DrawOutcome) :
    InpatientState × (ℕ → Option BoardPatient) :=
  let r := try_place_go unit now los (st.unit_wait unit) st pats
  ({ r.1 with unit_wait := updFn r.1.unit_wait unit r.2.2 }, r.2.1)

/-- ed_treatment.py:472-473: after `_admit_request` the treatment
process blocks on `p._admit_event` when the attribute exists; a simpy
event lets the waiter continue only once succeeded.  `true` means the
process runs on (releasing the doctor panel and returning); `false`
means it stays suspended forever. -/
def ed_resumes_after_admission (p : BoardPatient) : Bool :=
  match p.admit_event with
  | some false => false
  | _ => true

/-- Result of the consult-admit tail of
`_treat_acute_with_assigned_doctor` (ed_treatment.py:464-478):
`completed = true` means the process reached `return` (doctor panel
released); `completed = false` means it is suspended on the pending
admit event. -/
structure TreatAdmitOutcome where
  completed : Bool
  st : InpatientState
  p : BoardPatient

/-- The treatment tail once a consult decides to admit
(ed_treatment.py:464-478): call `_admit_request`, then block on the
admit event if one exists, else release the panel and return.  Note
this `return` happens even when the admission failed
(`admit_failed_no_unit`): no discharge, no bed release, no
disposition. -/
def treat_after_admit_decision (svc_to_unit : String → String)
    (st : InpatientState) (p : BoardPatient) (now : ℚ) (service : String)
    (los : DrawOutcome) : TreatAdmitOutcome :=
  let r := admit_request svc_to_unit st p now service los
  { completed := ed_resumes_after_admission r.2, st := r.1, p := r.2 }

/-- Number of terminal states a patient record is in: discharged
(`disposition_time` set by the discharge path, `lwbs = 0`),
left-without-being-seen (`lwbs = 1`), or ED-side transferred
(`inpatient_start` set). -/
def terminalCount (p : BoardPatient) : ℕ :=
  (if p.disposition_time.isSome ∧ p.lwbs = 0 then 1 else 0) +
  (if p.lwbs = 1 then 1 else 0) +
  (if p.inpatient_start.isSome then 1 else 0)

/-- C1 scenario state: the Medicine unit has one bed, occupied by an
earlier admission; patient 2 occupies the only counted bed of acute
area A and is about to be admitted. -/
def c1st0 : InpatientState :=
  { units := ["Medicine"]
    unit_cap := fun u => if u = "Medicine" then 1 else 0
    unit_busy := fun u => if u = "Medicine" then 1 else 0
    unit_wait := fun _ => []
    ed_areas := ["A"]
    busy := fun a => if a = "A" then 1 else 0
    ft_name := "FAST"
    ft_busy := 0 }

/-- Patient 2: in an acute-area bed, consult decided to admit. -/
def c1p : BoardPatient :=
  { pid := 2, area := "A", lwbs := 0, consult_admit_flag := 1, admit_flag := 0
    admit_service := none, admit_unit := none, admit_decision_time := none
    admit_event := none, inpatient_start := none
    emergency_inpatient_time := none, inpatient_los_minutes := none
    disposition_time := none }

/-- The admit request at time 100: the unit is full, so patient 2 is
waitlisted and the one-shot signal is created. -/
def c1req : InpatientState × BoardPatient :=
  admit_request (fun s => s) c1st0 c1p 100 "Medicine" (DrawOutcome.num 300)

/-- The ED treatment tail for the same admission. -/
def c1outcome : TreatAdmitOutcome :=
  treat_after_admit_decision (fun s => s) c1st0 c1p 100 "Medicine" (DrawOutcome.num 300)

/-- At time 500 the earlier occupant's stay ends: the unit bed frees
and the waitlist is backfilled. -/
def c1backfill : InpatientState × (ℕ → Option BoardPatient) :=
  try_place_inpatient_from_waitlist
    (inpatient_discharge_free_bed c1req.1 "Medicine") "Medicine"
    (fun pid => if pid = 2 then some c1req.2 else none) 500 (DrawOutcome.num 300)

/-- Patient 2 after the transfer. -/
def c1pFinal : BoardPatient := (c1backfill.2 2).getD c1p

/-- C1 (code bug): no code path resolves the one-shot "transferred"
signal — `_start_inpatient_stay` leaves `p._admit_event` untouched for
every input, so after patient 2 is waitlisted (signal created pending),
boards, and is finally transferred to the freed unit bed
(`inpatient_start` stamped, ED bed released, unit bed occupied,
waitlist emptied), the signal is still pending and the blocked ED
treatment process never resumes — the doctor's panel slot is never
released. -/
theorem C1_transferred_signal_never_resolved :
    (∀ (st : InpatientState) (p : BoardPatient) (unit : String) (now : ℚ)
        (los : DrawOutcome),
      ((start_inpatient_stay st p unit now los).2).admit_event = p.admit_event) ∧
    c1req.2.admit_event = some false ∧
    c1req.1.unit_wait "Medicine" = [2] ∧
    c1outcome.completed = false ∧
    c1pFinal.inpatient_start = some 500 ∧
    c1backfill.1.busy "A" = 0 ∧
    c1backfill.1.unit_busy "Medicine" = 1 ∧
    c1backfill.1.unit_wait "Medicine" = [] ∧
    c1pFinal.admit_event = some false ∧
    ed_resumes_after_admission c1pFinal = false := by
  refine ⟨fun st p unit now los => rfl, ?_, ?_, ?_, ?_, ?_, ?_, ?_, ?_, ?_⟩ <;> decide

/-- C4 scenario state: a Medicine unit with free beds; patient 9
occupies the only counted bed of area A. -/
def c4st0 : InpatientState :=
  { units := ["Medicine"]
    unit_cap := fun u => if u = "Medicine" then 32 else 0
    unit_busy := fun _ => 0
    unit_wait := fun _ => []
    ed_areas := ["A"]
    busy := fun a => if a = "A" then 1 else 0
    ft_name := "FAST"
    ft_busy := 0 }

def c4p : BoardPatient :=
  { pid := 9, area := "A", lwbs := 0, consult_admit_flag := 1, admit_flag := 0
    admit_service := none, admit_unit := none, admit_decision_time := none
    admit_event := none, inpatient_start := none
    emergency_inpatient_time := none, inpatient_los_minutes := none
    disposition_time := none }

/-- The consulted service "Medicine" is mapped by `service_to_unit` to
"ICU", which is not a configured unit: `admit_failed_no_unit`. -/
def c4bad : TreatAdmitOutcome :=
  treat_after_admit_decision (fun _ => "ICU") c4st0 c4p 100 "Medicine" (DrawOutcome.num 300)

/-- The same admission with the identity service map succeeds
immediately (free unit bed). -/
def c4good : TreatAdmitOutcome :=
  treat_after_admit_decision (fun s => s) c4st0 c4p 100 "Medicine" (DrawOutcome.num 300)

/-- C4 (code bug): when the admission request fails because the mapped
unit is unknown, the treatment process still completes (it returns
right after `_admit_request`, ed_treatment.py:467-478) with the patient
in ZERO terminal states — no discharge, no abandonment, no transfer —
and the ED bed counter still holding the bed; the same patient admitted
to a configured unit ends in exactly one terminal state
(transferred). -/
theorem C4_admit_failed_patient_reaches_no_terminal_state :
    c4bad.completed = true ∧
    terminalCount c4bad.p = 0 ∧
    c4bad.p.disposition_time = none ∧
    c4bad.p.lwbs = 0 ∧
    c4bad.p.inpatient_start = none ∧
    c4bad.st.busy "A" = 1 ∧
    c4good.completed = true ∧
    terminalCount c4good.p = 1 := by
  refine ⟨?_, ?_, ?_, ?_, ?_, ?_, ?_, ?_⟩ <;> decide

end EDems
